import Mathlib

/-!
Verification of the Relay event/chat relay service.

This file shallowly embeds the storage layer (`database.py`), the HTTP
surface (`api.py`) and the owner-side command handlers and daily-summary
job (`bot.py`) as executable Lean definitions, and proves or refutes the
specified properties about them.

Timestamps are modelled as `Nat` (Unix seconds, non-negative in every
scenario the properties mention); money amounts as `ℚ` (the source stores
`NUMERIC(10,2)` and sums/averages them exactly).

The chat-session storage functions (`create_chat_session`,
`get_chat_session`, `add_chat_message`, `get_chat_messages`,
`close_chat_session`) are called from `api.py` and `bot.py` but are absent
from `database.py`; they are modelled from the spec, each marked
`Modelled from the spec:` in its doc comment.
-/

deriving instance DecidableEq for Except

namespace Relay

/-! Structural models of the Python string operations used by the source
(`str.startswith`, slicing / `removeprefix`, `str.strip`, `str.upper`),
defined over the character list so that they evaluate on concrete inputs. -/

/-- Python `s.startswith(p)`. -/
def pyStartsWith (s p : String) : Bool :=
  p.data.isPrefixOf s.data

/-- Python `s[n:]` on code points (`str.removeprefix` once the prefix length is
known). -/
def pyDrop (s : String) (n : Nat) : String :=
  ⟨s.data.drop n⟩

/-- Python `s.strip()`: remove leading and trailing whitespace. -/
def pyStrip (s : String) : String :=
  ⟨((s.data.dropWhile Char.isWhitespace).reverse.dropWhile Char.isWhitespace).reverse⟩

/-- Python `s.upper()` (ASCII case mapping). -/
def pyUpper (s : String) : String :=
  ⟨s.data.map Char.toUpper⟩

/-- A row of the `clients` table (`database.py`, schema in `init_db`). -/
structure Client where
  id               : Nat
  slug             : String
  name             : String
  api_secret       : String
  telegram_chat_id : Option Int
  currency_symbol  : String
  timezone         : String
  active           : Bool
deriving DecidableEq, Repr

/-- A row of the `telegram_chats` table. -/
structure TgChat where
  client_id : Nat
  chat_id   : Int
  active    : Bool
deriving DecidableEq, Repr

/-- A row of the `orders` table.  `status` defaults to `"pending"` on insert. -/
structure OrderRow where
  client_id     : Nat
  order_number  : String
  customer_name : String
  total         : ℚ
  item_count    : Nat
  status        : String
  received_at   : Nat
  created_at    : Nat
deriving DecidableEq, Repr

/-- A row of the `settings` table (`(client_id, key) → value`). -/
structure SettingRow where
  client_id : Nat
  key       : String
  value     : String
deriving DecidableEq, Repr

/-- A row of the `events` table (payload kept as an opaque association list). -/
structure EventRow where
  client_id  : Nat
  event_type : String
  payload    : List (String × String)
  created_at : Nat
deriving DecidableEq, Repr

/-- Message sender tag: the chat spec admits exactly `visitor` and `owner`. -/
inductive Sender where
  | visitor
  | owner
deriving DecidableEq, Repr

/-- Chat-session status: `open` or `closed` (terminal). -/
inductive SessStatus where
  | «open»
  | closed
deriving DecidableEq, Repr

/-- A chat session (spec §3 `ChatSession`). -/
structure ChatSession where
  session_id : String
  client_id  : Nat
  visitor_id : String
  page       : String
  status     : SessStatus
deriving DecidableEq, Repr

/-- A chat message (spec §3 `ChatMessage`); `sent_at` is assigned by the server
at write time. -/
structure ChatMsg where
  session_id : String
  sender     : Sender
  body       : String
  sent_at    : Nat
deriving DecidableEq, Repr

/-- The whole persistent store: the tables of `database.py` plus the
spec-modelled chat tables. -/
structure Db where
  clients       : List Client
  tg            : List TgChat
  orders        : List OrderRow
  events        : List EventRow
  settings      : List SettingRow
  sessions      : List ChatSession
  chat_messages : List ChatMsg
deriving DecidableEq, Repr

/-! ## Storage layer (`database.py`) -/

/-- `get_client_by_slug`: `SELECT * FROM clients WHERE slug = %s AND active = TRUE`. -/
def get_client_by_slug (db : Db) (slug : String) : Option Client :=
  db.clients.find? (fun c => c.slug == slug && c.active)

/-- `get_client_by_chat_id`: join of `clients` and `telegram_chats`, both rows
required active, `LIMIT 1`. -/
def get_client_by_chat_id (db : Db) (chat_id : Int) : Option Client :=
  db.clients.find? (fun c =>
    c.active && db.tg.any (fun t => t.client_id == c.id && t.chat_id == chat_id && t.active))

/-- `get_all_active_clients`: `WHERE active = TRUE AND telegram_chat_id IS NOT NULL`. -/
def get_all_active_clients (db : Db) : List Client :=
  db.clients.filter (fun c => c.active && c.telegram_chat_id.isSome)

/-- `get_setting`. -/
def get_setting (db : Db) (client_id : Nat) (key : String) : Option String :=
  (db.settings.find? (fun s => s.client_id == client_id && s.key == key)).map (·.value)

/-- The `received_at or now` expression of `record_order`: Python `or` takes the
right operand when the left is falsy (`None` or `0`). -/
def stored_received_at (received_at : Option Nat) (now : Nat) : Nat :=
  match received_at with
  | none => now
  | some v => if v = 0 then now else v

/-- `record_order`: inserts an order row; `status` takes the schema default
`'pending'`, `received_at` is `received_at or now`, `created_at` is `now`. -/
def record_order (db : Db) (client_id : Nat) (order_number customer_name : String)
    (total : ℚ) (item_count : Nat) (received_at : Option Nat) (now : Nat) : Db :=
  { db with orders := db.orders ++
      [⟨client_id, order_number, customer_name, total, item_count, "pending",
        stored_received_at received_at now, now⟩] }

/-- Aggregate result of the stats queries. -/
structure Stats where
  order_count : Nat
  revenue     : ℚ
  avg_order   : ℚ
deriving DecidableEq, Repr

/-- The `WHERE` clause of `get_today_stats`:
`client_id = %s AND received_at >= today_start AND status != 'cancelled'`. -/
def today_pred (client_id today_start : Nat) (o : OrderRow) : Bool :=
  o.client_id == client_id && decide (today_start ≤ o.received_at) && !(o.status == "cancelled")

/-- `get_today_stats`: `today_start = int(time.time()) // 86400 * 86400`;
`COUNT`, `COALESCE(SUM(total),0)`, `COALESCE(AVG(total),0)` over the filtered rows. -/
def get_today_stats (db : Db) (client_id : Nat) (now : Nat) : Stats :=
  let today_start := now / 86400 * 86400
  let rows := db.orders.filter (today_pred client_id today_start)
  let revenue := rows.foldl (fun a o => a + o.total) 0
  { order_count := rows.length
    revenue     := revenue
    avg_order   := if rows.length = 0 then 0 else revenue / rows.length }

/-- `log_event`. -/
def log_event (db : Db) (client_id : Nat) (event_type : String)
    (payload : List (String × String)) (now : Nat) : Db :=
  { db with events := db.events ++ [⟨client_id, event_type, payload, now⟩] }

/-! ## Spec-modelled chat storage

These five functions are called by `api.py` and `bot.py` but are missing from
`database.py`; each is modelled from spec §3 and §4.2. -/

/-- Modelled from the spec: `create_chat_session` — missing from `database.py`.
Spec §4.2 `start`: "creates session in `open`"; the generated `session_id` is
taken as a parameter (the source draws it from a random source). -/
def create_chat_session (db : Db) (session_id : String) (client_id : Nat)
    (visitor_id page : String) : Db :=
  { db with sessions := db.sessions ++ [⟨session_id, client_id, visitor_id, page, .«open»⟩] }

/-- Modelled from the spec: `get_chat_session` — missing from `database.py`.
Looks up the session record by its id. -/
def get_chat_session (db : Db) (session_id : String) : Option ChatSession :=
  db.sessions.find? (fun s => s.session_id == session_id)

/-- Modelled from the spec: `add_chat_message` — missing from `database.py`.
Spec §4.2: appends an immutable message whose `sent_at` is "assigned at write
time by the engine (not client-supplied)"; `now` is the engine clock reading. -/
def add_chat_message (db : Db) (session_id : String) (sender : Sender)
    (body : String) (now : Nat) : Db :=
  { db with chat_messages := db.chat_messages ++ [⟨session_id, sender, body, now⟩] }

/-- Modelled from the spec: `get_chat_messages` — missing from `database.py`.
Spec §4.2 `poll`: "returns all messages with `sent_at > since_timestamp`",
ordered by `sent_at` with ties broken by insertion order; since `sent_at` is
engine-assigned at write time from a monotone clock, insertion order realises
that order. -/
def get_chat_messages (db : Db) (session_id : String) (since : Nat) : List ChatMsg :=
  (db.chat_messages.filter (fun m => m.session_id == session_id)).filter
    (fun m => decide (since < m.sent_at))

/-- Modelled from the spec: `close_chat_session` — missing from `database.py`.
Spec §4.2 `close`: sets the session's status to `closed`. -/
def close_chat_session (db : Db) (session_id : String) : Db :=
  { db with sessions := db.sessions.map (fun s =>
      if s.session_id == session_id then { s with status := .closed } else s) }

/-! ## HTTP surface (`api.py`)

Endpoints abort with `HTTPException(status, detail)`; a raised exception means
no storage mutation happened, so endpoints return `Except HErr (Db × α)` and an
`error` result carries no new store. -/

/-- The `fastapi.HTTPException` payload. -/
inductive HErr where
  | http (status : Nat) (detail : String)
deriving DecidableEq, Repr

/-- Status code of an `HErr`. -/
def HErr.statusCode : HErr → Nat
  | .http s _ => s

/-- `OrderEvent` request body, pydantic defaults already applied. -/
structure OrderEvent where
  order_number  : String
  customer_name : String
  total         : ℚ
  item_count    : Nat
  received_at   : Option Nat
deriving DecidableEq, Repr

/-- `GenericEvent` request body. -/
structure GenericEvent where
  event_type : String
  payload    : List (String × String)
deriving DecidableEq, Repr

/-- `ChatStart` request body. -/
structure ChatStart where
  visitor_name  : String
  page          : String
  first_message : String
deriving DecidableEq, Repr

/-- `ChatMessage` request body. -/
structure ChatMessage where
  session_id : String
  message    : String
deriving DecidableEq, Repr

/-- `verify_secret` (`api.py`): 401 when the header is empty or lacks the
`Bearer ` scheme; otherwise strips the prefix, trims, and compares against
`client["api_secret"]` (via `hmac.compare_digest`, i.e. equality). -/
def verify_secret (client : Client) (authorization : String) : Except HErr Unit :=
  if authorization = "" ∨ ¬ pyStartsWith authorization "Bearer " then
    .error (.http 401 "Missing Authorization header")
  else
    let incoming := pyStrip (pyDrop authorization 7)
    if incoming = client.api_secret then .ok () else .error (.http 401 "Invalid secret")

/-- `POST /event/{client_slug}/order` (`receive_order`). The outbound Telegram
notification is fire-and-forget and does not touch the store, so it is not
modelled. -/
def receive_order (db : Db) (client_slug : String) (body : OrderEvent)
    (authorization : String) (now : Nat) : Except HErr (Db × Bool) :=
  match get_client_by_slug db client_slug with
  | none => .error (.http 404 "Client not found")
  | some client => do
      verify_secret client authorization
      .ok (record_order db client.id body.order_number body.customer_name
             body.total body.item_count body.received_at now, true)

/-- `POST /event/{client_slug}/generic` (`receive_generic_event`). -/
def receive_generic_event (db : Db) (client_slug : String) (body : GenericEvent)
    (authorization : String) (now : Nat) : Except HErr (Db × Bool) :=
  match get_client_by_slug db client_slug with
  | none => .error (.http 404 "Client not found")
  | some client => do
      verify_secret client authorization
      .ok (log_event db client.id body.event_type body.payload now, true)

/-- `GET /maintenance/{client_slug}` (`get_maintenance`):
`db.get_setting(client["id"], "maintenance") or "off"`. -/
def get_maintenance (db : Db) (client_slug : String) (authorization : String) :
    Except HErr String :=
  match get_client_by_slug db client_slug with
  | none => .error (.http 404 "Client not found")
  | some client => do
      verify_secret client authorization
      .ok ((get_setting db client.id "maintenance").getD "off")

/-- `POST /chat/{client_slug}/start` (`chat_start`): creates the session and
saves the first message; the fresh `session_id` is a parameter. -/
def chat_start (db : Db) (client_slug : String) (body : ChatStart)
    (authorization : String) (new_session_id : String) (now : Nat) :
    Except HErr (Db × String) :=
  match get_client_by_slug db client_slug with
  | none => .error (.http 404 "Client not found")
  | some client => do
      verify_secret client authorization
      let db := create_chat_session db new_session_id client.id body.visitor_name body.page
      let db := add_chat_message db new_session_id .visitor body.first_message now
      .ok (db, new_session_id)

/-- `POST /chat/{client_slug}/message` (`chat_message`): resolves the client by
slug, verifies the shared secret, then checks the session exists, belongs to
that client and is not closed before appending the visitor message. -/
def chat_message (db : Db) (client_slug : String) (body : ChatMessage)
    (authorization : String) (now : Nat) : Except HErr (Db × Bool) :=
  match get_client_by_slug db client_slug with
  | none => .error (.http 404 "Client not found")
  | some client => do
      verify_secret client authorization
      match get_chat_session db body.session_id with
      | none => .error (.http 404 "Session not found")
      | some session =>
          if session.client_id ≠ client.id then
            .error (.http 404 "Session not found")
          else if session.status = .closed then
            .error (.http 400 "Session is closed")
          else
            .ok (add_chat_message db body.session_id .visitor body.message now, true)

/-- `GET /chat/{session_id}/poll` (`chat_poll`): no auth — the session id is
the capability; returns the status and the messages with `sent_at > since`. -/
def chat_poll (db : Db) (session_id : String) (since : Nat) :
    Except HErr (SessStatus × List ChatMsg) :=
  match get_chat_session db session_id with
  | none => .error (.http 404 "Session not found")
  | some session => .ok (session.status, get_chat_messages db session_id since)

/-- `POST /chat/{session_id}/close` (`chat_close`): no auth; closes the session
if it exists. -/
def chat_close (db : Db) (session_id : String) : Except HErr (Db × Bool) :=
  match get_chat_session db session_id with
  | none => .error (.http 404 "Session not found")
  | some _ => .ok (close_chat_session db session_id, true)

/-! ## Owner commands (`bot.py`)

Telegram handlers reply with a message and return normally; each handler is a
function from the store (plus handler inputs) to the new store and an observable
outcome. -/

/-- Observable outcome of `/reply`. -/
inductive ReplyOut where
  | notLinked
  | usage
  | sessionNotFound
  | notYourStore
  | alreadyClosed
  | replied (visitor session_id : String)
deriving DecidableEq, Repr

/-- `session.get("visitor_id") or "Visitor"`. -/
def visitorLabel (s : ChatSession) : String :=
  if s.visitor_id = "" then "Visitor" else s.visitor_id

/-- `/reply <session_id> <message...>` (`cmd_reply`): requires a linked chat, at
least two arguments, an existing session of this client that is not closed;
then appends an `owner` message. -/
def cmd_reply (db : Db) (chat_id : Int) (args : List String) (now : Nat) :
    Db × ReplyOut :=
  match get_client_by_chat_id db chat_id with
  | none => (db, .notLinked)
  | some client =>
      if args.length < 2 then (db, .usage)
      else
        let session_id := pyUpper (args.headD "")
        let message := " ".intercalate (args.drop 1)
        match get_chat_session db session_id with
        | none => (db, .sessionNotFound)
        | some session =>
            if session.client_id ≠ client.id then (db, .notYourStore)
            else if session.status = .closed then (db, .alreadyClosed)
            else (add_chat_message db session_id .owner message now,
                  .replied (visitorLabel session) session_id)

/-- Observable outcome of `/close`. -/
inductive CloseOut where
  | notLinked
  | usage
  | sessionNotFound
  | notYourStore
  | closedOk (visitor session_id : String)
deriving DecidableEq, Repr

/-- `/close <session_id>` (`cmd_close`): requires a linked chat, an argument,
an existing session of this client; closes it unconditionally (no
already-closed check) and reports success. -/
def cmd_close (db : Db) (chat_id : Int) (args : List String) : Db × CloseOut :=
  match get_client_by_chat_id db chat_id with
  | none => (db, .notLinked)
  | some client =>
      if args = [] then (db, .usage)
      else
        let session_id := pyUpper (args.headD "")
        match get_chat_session db session_id with
        | none => (db, .sessionNotFound)
        | some session =>
            if session.client_id ≠ client.id then (db, .notYourStore)
            else (close_chat_session db session_id,
                  .closedOk (visitorLabel session) session_id)

/-- The `awaiting_reply` entry of `context.user_data`. -/
structure Pending where
  session_id : String
  visitor    : String
deriving DecidableEq, Repr

/-- Observable outcome of the reply-button text handler. -/
inductive HandleOut where
  | ignored
  | emptyText
  | sessionClosed
  | sent (visitor message : String)
deriving DecidableEq, Repr

/-- `handle_reply_message` (`bot.py`): when an `awaiting_reply` state is
pending and the trimmed text is nonempty, posts the owner reply unless the
session is gone or closed; returns the new store, the new pending state and
the outcome. -/
def handle_reply_message (db : Db) (pending : Option Pending) (text : String)
    (now : Nat) : Db × Option Pending × HandleOut :=
  match pending with
  | none => (db, none, .ignored)
  | some p =>
      let message := pyStrip text
      if message = "" then (db, some p, .emptyText)
      else
        match get_chat_session db p.session_id with
        | none => (db, none, .sessionClosed)
        | some session =>
            if session.status = .closed then (db, none, .sessionClosed)
            else (add_chat_message db p.session_id .owner message now, none,
                  .sent p.visitor message)

/-! ## Daily summary job (`bot.py`, `daily_summary_job`)

`context.bot_data` keeps `summary_last_day` and the `summary_sent` set.  The
Python key is the string `f"{client['id']}-{today_key}"`; since a decimal id
contains no `"-"`, that encoding is injective in `(id, date)`, and the set is
modelled as a set of `(id, date)` pairs.  Success or failure of
`send_event_notification` for a given client during a tick is modelled by the
tick's `sendOk` oracle. -/

/-- The mutable `bot_data` state of the summary job. -/
structure BotData where
  summary_last_day : Option String
  summary_sent     : List (Nat × String)
deriving DecidableEq, Repr

/-- One invocation instant of the periodic job: the current date key,
hour and minute (`datetime.now()`), and whether the outbound send succeeds
for each client id at this instant. -/
structure Tick where
  dateKey : String
  hour    : Nat
  minute  : Nat
  sendOk  : Nat → Bool

/-- The `for client in clients` loop body of `daily_summary_job`: skip when the
`(id, date)` key is already in the sent set; on send success add the key and
record the send; on failure (`except`) log only.  Returns the final sent set
and the ids successfully sent this tick, in order. -/
def summaryLoop (dateKey : String) (sendOk : Nat → Bool) :
    List Client → List (Nat × String) → List (Nat × String) × List Nat
  | [], sent => (sent, [])
  | c :: rest, sent =>
      if (c.id, dateKey) ∈ sent then summaryLoop dateKey sendOk rest sent
      else if sendOk c.id then
        let r := summaryLoop dateKey sendOk rest ((c.id, dateKey) :: sent)
        (r.1, c.id :: r.2)
      else summaryLoop dateKey sendOk rest sent

/-- `daily_summary_job`: reset the sent set when the date key changed, return
without sending outside the configured hour:minute, otherwise run the client
loop over all active clients with a linked destination. -/
def daily_summary_job (sh sm : Nat) (db : Db) (bd : BotData) (tk : Tick) :
    BotData × List Nat :=
  let bd := if bd.summary_last_day = some tk.dateKey then bd
            else { summary_last_day := some tk.dateKey, summary_sent := [] }
  if tk.hour = sh ∧ tk.minute = sm then
    let r := summaryLoop tk.dateKey tk.sendOk (get_all_active_clients db) bd.summary_sent
    ({ bd with summary_sent := r.1 }, r.2)
  else (bd, [])

/-- A run of the repeating job over a sequence of ticks, concatenating the
successful sends. -/
def run_summary (sh sm : Nat) (db : Db) : List Tick → BotData → BotData × List Nat
  | [], bd => (bd, [])
  | tk :: rest, bd =>
      let r1 := daily_summary_job sh sm db bd tk
      let r2 := run_summary sh sm db rest r1.1
      (r2.1, r1.2 ++ r2.2)

/-! ## Theorems -/

/-- One engine-side message append: sender, body and the engine clock reading
assigned as `sent_at`. -/
structure AppendEv where
  sender  : Sender
  body    : String
  sent_at : Nat
deriving DecidableEq, Repr

/-- The message row an append produces. -/
def mkMsg (session_id : String) (e : AppendEv) : ChatMsg :=
  ⟨session_id, e.sender, e.body, e.sent_at⟩

/-- Replay a sequence of appends (any interleaving of visitor and owner
writes) against one session. -/
def run_appends (session_id : String) : List AppendEv → Db → Db
  | [], db => db
  | e :: rest, db =>
      run_appends session_id rest (add_chat_message db session_id e.sender e.body e.sent_at)

theorem run_appends_sessions (session_id : String) (evs : List AppendEv) (db : Db) :
    (run_appends session_id evs db).sessions = db.sessions := by
  induction evs generalizing db with
  | nil => rfl
  | cons e rest ih => simpa [run_appends, add_chat_message] using ih _

theorem run_appends_chat_messages (session_id : String) (evs : List AppendEv) (db : Db) :
    (run_appends session_id evs db).chat_messages
      = db.chat_messages ++ evs.map (mkMsg session_id) := by
  induction evs generalizing db with
  | nil => simp [run_appends]
  | cons e rest ih => simp [run_appends, add_chat_message, ih, mkMsg]

theorem get_chat_session_run_appends (session_id : String) (evs : List AppendEv) (db : Db) :
    get_chat_session (run_appends session_id evs db) session_id
      = get_chat_session db session_id := by
  simp [get_chat_session, run_appends_sessions]

theorem get_chat_messages_run_appends (db : Db) (session_id : String)
    (evs : List AppendEv) (t : Nat)
    (h0 : db.chat_messages.filter (fun m => m.session_id == session_id) = []) :
    get_chat_messages (run_appends session_id evs db) session_id t
      = (evs.map (mkMsg session_id)).filter (fun m => decide (t < m.sent_at)) := by
  unfold get_chat_messages
  rw [run_appends_chat_messages, List.filter_append, h0, List.nil_append]
  congr 1
  apply List.filter_eq_self.mpr
  intro m hm
  rcases List.mem_map.mp hm with ⟨e, _, rfl⟩
  simp [mkMsg]

/-- C1: after `N` messages have been appended to a session — in any
interleaving of visitor and owner writes, with engine-assigned positive,
non-decreasing `sent_at` values — `poll(since=0)` returns exactly those `N`
messages in non-decreasing `sent_at` order together with the session's current
status, and `poll(since=t)` returns exactly the messages with `sent_at > t`. -/
theorem poll_returns_appended_messages
    (db : Db) (session_id : String) (s : ChatSession) (evs : List AppendEv)
    (hs : get_chat_session db session_id = some s)
    (h0 : db.chat_messages.filter (fun m => m.session_id == session_id) = [])
    (hpos : ∀ e ∈ evs, 0 < e.sent_at)
    (hmono : evs.Chain' (fun a b => a.sent_at ≤ b.sent_at)) :
    chat_poll (run_appends session_id evs db) session_id 0
        = .ok (s.status, evs.map (mkMsg session_id)) ∧
    (evs.map (mkMsg session_id)).length = evs.length ∧
    (evs.map (mkMsg session_id)).Chain' (fun a b => a.sent_at ≤ b.sent_at) ∧
    ∀ t, chat_poll (run_appends session_id evs db) session_id t
        = .ok (s.status, (evs.map (mkMsg session_id)).filter
            (fun m => decide (t < m.sent_at))) := by
  have hsess : get_chat_session (run_appends session_id evs db) session_id = some s := by
    rw [get_chat_session_run_appends]; exact hs
  have hall : ∀ t, chat_poll (run_appends session_id evs db) session_id t
      = .ok (s.status, (evs.map (mkMsg session_id)).filter
          (fun m => decide (t < m.sent_at))) := by
    intro t
    unfold chat_poll
    rw [hsess, get_chat_messages_run_appends db session_id evs t h0]
  refine ⟨?_, by simp, ?_, hall⟩
  · rw [hall 0]
    congr 1
    congr 1
    apply List.filter_eq_self.mpr
    intro m hm
    rcases List.mem_map.mp hm with ⟨e, he, rfl⟩
    simpa [mkMsg] using hpos e he
  · rw [List.chain'_map]
    simpa [mkMsg] using hmono

/-- A concrete store: one active tenant `acme` with secret `"sek"`, an open
session `S1` and a closed session `S2`, no messages yet. -/
def dbEx : Db :=
  { clients := [⟨1, "acme", "Acme", "sek", some 7, "$", "Asia/Kolkata", true⟩]
    tg := [⟨1, 7, true⟩]
    orders := []
    events := []
    settings := []
    sessions := [⟨"S1", 1, "Vis", "/shoes", .«open»⟩, ⟨"S2", 1, "Vis", "/", .closed⟩]
    chat_messages := [] }

/-- Two concrete appends: a visitor write then an owner write. -/
def evsEx : List AppendEv := [⟨.visitor, "Do you ship to Canada?", 10⟩, ⟨.owner, "Yes!", 11⟩]

theorem poll_returns_appended_messages_witness :
    chat_poll (run_appends "S1" evsEx dbEx) "S1" 0
        = .ok (SessStatus.«open», evsEx.map (mkMsg "S1")) ∧
    (evsEx.map (mkMsg "S1")).length = evsEx.length ∧
    (evsEx.map (mkMsg "S1")).Chain' (fun a b => a.sent_at ≤ b.sent_at) ∧
    chat_poll (run_appends "S1" evsEx dbEx) "S1" 10
        = .ok (SessStatus.«open», (evsEx.map (mkMsg "S1")).filter
            (fun m => decide (10 < m.sent_at))) := by
  have h := poll_returns_appended_messages dbEx "S1" ⟨"S1", 1, "Vis", "/shoes", .«open»⟩
    evsEx (by decide) (by decide) (by decide) (by simp [evsEx])
  exact ⟨h.1, h.2.1, h.2.2.1, h.2.2.2 10⟩

/-- C2: posting to a closed session — visitor message endpoint, owner `/reply`
command, or the reply-button text flow — fails with the invalid-state error and
appends nothing (the store is unchanged). -/
theorem closed_session_rejects_posts (db : Db) (now : Nat) :
    (∀ (slug : String) (body : ChatMessage) (auth : String) (client : Client)
        (session : ChatSession),
      get_client_by_slug db slug = some client →
      verify_secret client auth = .ok () →
      get_chat_session db body.session_id = some session →
      session.client_id = client.id →
      session.status = .closed →
      chat_message db slug body auth now = .error (.http 400 "Session is closed")) ∧
    (∀ (chat_id : Int) (args : List String) (client : Client) (session : ChatSession),
      get_client_by_chat_id db chat_id = some client →
      2 ≤ args.length →
      get_chat_session db (pyUpper (args.headD "")) = some session →
      session.client_id = client.id →
      session.status = .closed →
      cmd_reply db chat_id args now = (db, .alreadyClosed)) ∧
    (∀ (p : Pending) (text : String) (session : ChatSession),
      pyStrip text ≠ "" →
      get_chat_session db p.session_id = some session →
      session.status = .closed →
      handle_reply_message db (some p) text now = (db, none, .sessionClosed)) := by
  refine ⟨?_, ?_, ?_⟩
  · intro slug body auth client session hc hv hs hid hclosed
    unfold chat_message
    rw [hc]
    simp only [hv, hs, hid, hclosed]
    simp only [ne_eq, not_true_eq_false, if_false, if_pos rfl]
    rfl
  · intro chat_id args client session hc hlen hs hid hclosed
    unfold cmd_reply
    rw [hc]
    have : ¬ args.length < 2 := by omega
    simp only [this, if_false, hs, hid, hclosed]
    simp
  · intro p text session hne hs hclosed
    unfold handle_reply_message
    simp only [hne, if_neg hne, hs, hclosed]
    simp

theorem closed_session_rejects_posts_witness :
    chat_message dbEx "acme" ⟨"S2", "hi"⟩ "Bearer sek" 5
        = .error (.http 400 "Session is closed") ∧
    cmd_reply dbEx 7 ["s2", "hello", "there"] 5 = (dbEx, .alreadyClosed) ∧
    handle_reply_message dbEx (some ⟨"S2", "Vis"⟩) " hi " 5
        = (dbEx, none, .sessionClosed) := by
  have h := closed_session_rejects_posts dbEx 5
  exact ⟨h.1 "acme" ⟨"S2", "hi"⟩ "Bearer sek" ⟨1, "acme", "Acme", "sek", some 7, "$", "Asia/Kolkata", true⟩
            ⟨"S2", 1, "Vis", "/", .closed⟩ (by decide) (by decide) (by decide) (by decide) (by decide),
         h.2.1 7 ["s2", "hello", "there"] ⟨1, "acme", "Acme", "sek", some 7, "$", "Asia/Kolkata", true⟩
            ⟨"S2", 1, "Vis", "/", .closed⟩ (by decide) (by decide) (by decide) (by decide) (by decide),
         h.2.2 ⟨"S2", "Vis"⟩ " hi " ⟨"S2", 1, "Vis", "/", .closed⟩ (by decide) (by decide) (by decide)⟩

/-- The per-row update `close_chat_session` applies. -/
def closeRow (session_id : String) (s : ChatSession) : ChatSession :=
  if s.session_id == session_id then { s with status := .closed } else s

theorem close_chat_session_eq_map (db : Db) (sid : String) :
    close_chat_session db sid = { db with sessions := db.sessions.map (closeRow sid) } := rfl

theorem closeRow_session_id (sid : String) (s : ChatSession) :
    (closeRow sid s).session_id = s.session_id := by
  unfold closeRow
  by_cases h : s.session_id == sid <;> simp [h]

theorem closeRow_idem (sid : String) : closeRow sid ∘ closeRow sid = closeRow sid := by
  funext s
  unfold Function.comp closeRow
  by_cases h : s.session_id == sid <;> simp [h]

theorem get_chat_session_close (db : Db) (sid : String) :
    get_chat_session (close_chat_session db sid) sid
      = (get_chat_session db sid).map (fun s => { s with status := .closed }) := by
  unfold get_chat_session close_chat_session
  show (db.sessions.map (closeRow sid)).find? _ = _
  induction db.sessions with
  | nil => rfl
  | cons a t ih =>
      by_cases h : a.session_id == sid
      · simp [List.find?, closeRow, h]
      · simp only [List.map_cons, List.find?]
        rw [closeRow_session_id]
        simp only [h]
        exact ih

theorem close_chat_session_idem (db : Db) (sid : String) :
    close_chat_session (close_chat_session db sid) sid = close_chat_session db sid := by
  show { db with sessions := (db.sessions.map (closeRow sid)).map (closeRow sid) }
      = { db with sessions := db.sessions.map (closeRow sid) }
  rw [List.map_map, closeRow_idem]

/-- C3: closing is idempotent — `chat_close` succeeds on an existing session,
succeeds again on the already-closed session without changing the store, the
state after two closes equals the state after one, the session ends `closed`,
and the owner's `/close` on the already-closed session is likewise a no-op
success. -/
theorem close_idempotent (db : Db) (sid : String) (s : ChatSession)
    (hs : get_chat_session db sid = some s) :
    chat_close db sid = .ok (close_chat_session db sid, true) ∧
    chat_close (close_chat_session db sid) sid = .ok (close_chat_session db sid, true) ∧
    close_chat_session (close_chat_session db sid) sid = close_chat_session db sid ∧
    get_chat_session (close_chat_session db sid) sid = some { s with status := .closed } ∧
    (∀ (chat_id : Int) (args : List String) (client : Client),
      get_client_by_chat_id (close_chat_session db sid) chat_id = some client →
      args ≠ [] → pyUpper (args.headD "") = sid →
      s.client_id = client.id →
      cmd_close (close_chat_session db sid) chat_id args
        = (close_chat_session db sid, .closedOk (visitorLabel s) sid)) := by
  have h4 : get_chat_session (close_chat_session db sid) sid
      = some { s with status := .closed } := by
    rw [get_chat_session_close, hs]; rfl
  refine ⟨?_, ?_, close_chat_session_idem db sid, h4, ?_⟩
  · unfold chat_close
    rw [hs]
  · unfold chat_close
    rw [h4, close_chat_session_idem]
  · intro chat_id args client hclient hne hup hid
    unfold cmd_close
    rw [hclient]
    simp only [hne, if_neg hne, hup, h4]
    have hcid : ({ s with status := SessStatus.closed } : ChatSession).client_id
        = client.id := hid
    simp [hcid, hid, close_chat_session_idem, visitorLabel]

theorem close_idempotent_witness :
    chat_close dbEx "S1" = .ok (close_chat_session dbEx "S1", true) ∧
    chat_close (close_chat_session dbEx "S1") "S1"
        = .ok (close_chat_session dbEx "S1", true) ∧
    close_chat_session (close_chat_session dbEx "S1") "S1" = close_chat_session dbEx "S1" ∧
    get_chat_session (close_chat_session dbEx "S1") "S1"
        = some ⟨"S1", 1, "Vis", "/shoes", .closed⟩ ∧
    cmd_close (close_chat_session dbEx "S1") 7 ["s1"]
        = (close_chat_session dbEx "S1", .closedOk "Vis" "S1") := by
  have h := close_idempotent dbEx "S1" ⟨"S1", 1, "Vis", "/shoes", .«open»⟩ (by decide)
  refine ⟨h.1, h.2.1, h.2.2.1, h.2.2.2.1, ?_⟩
  exact h.2.2.2.2 7 ["s1"] ⟨1, "acme", "Acme", "sek", some 7, "$", "Asia/Kolkata", true⟩
    (by decide) (by decide) (by decide) (by decide)

/-- C4 counterexample: the visitor message endpoint is NOT authenticated by the
session id alone — with session `S1` existing and open, a request carrying no
Authorization header is rejected with 401 by `verify_secret`, so the claim
that "no Authorization check is applied on these endpoints" fails for
`chat_message`. -/
theorem chat_message_requires_auth_cex :
    get_chat_session dbEx "S1" = some ⟨"S1", 1, "Vis", "/shoes", .«open»⟩ ∧
    chat_message dbEx "acme" ⟨"S1", "hi"⟩ "" 5
        = .error (.http 401 "Missing Authorization header") := by
  constructor <;> decide

/-- C4 amended: possession of the session id is the only credential for `poll`
and `close`; the visitor `message` endpoint additionally resolves the tenant
slug and requires the tenant's shared secret in a Bearer Authorization header —
it succeeds with a valid secret on an open session and fails 401 when the
header is absent. -/
theorem session_capability_amended (db : Db) (sid : String) (session : ChatSession)
    (hs : get_chat_session db sid = some session) :
    (∀ since, chat_poll db sid since = .ok (session.status, get_chat_messages db sid since)) ∧
    chat_close db sid = .ok (close_chat_session db sid, true) ∧
    (∀ (slug : String) (client : Client) (body : ChatMessage) (auth : String) (now : Nat),
      get_client_by_slug db slug = some client →
      body.session_id = sid →
      session.client_id = client.id →
      session.status ≠ .closed →
      verify_secret client auth = .ok () →
      chat_message db slug body auth now
        = .ok (add_chat_message db sid .visitor body.message now, true)) ∧
    (∀ (slug : String) (client : Client) (body : ChatMessage) (now : Nat),
      get_client_by_slug db slug = some client →
      chat_message db slug body "" now
        = .error (.http 401 "Missing Authorization header")) := by
  refine ⟨?_, ?_, ?_, ?_⟩
  · intro since
    unfold chat_poll
    rw [hs]
  · unfold chat_close
    rw [hs]
  · intro slug client body auth now hc hbs hid hne hv
    unfold chat_message
    rw [hc]
    subst hbs
    simp only [hv, hs, hid, hne]
    simp [hid, hne]
    rfl
  · intro slug client body now hc
    unfold chat_message
    rw [hc]
    simp [verify_secret]
    rfl

theorem session_capability_amended_witness :
    chat_poll dbEx "S1" 0 = .ok (SessStatus.«open», get_chat_messages dbEx "S1" 0) ∧
    chat_close dbEx "S1" = .ok (close_chat_session dbEx "S1", true) ∧
    chat_message dbEx "acme" ⟨"S1", "hello"⟩ "Bearer sek" 5
        = .ok (add_chat_message dbEx "S1" .visitor "hello" 5, true) ∧
    chat_message dbEx "acme" ⟨"S1", "hello"⟩ "" 5
        = .error (.http 401 "Missing Authorization header") := by
  have h := session_capability_amended dbEx "S1" ⟨"S1", 1, "Vis", "/shoes", .«open»⟩ (by decide)
  exact ⟨h.1 0, h.2.1,
    h.2.2.1 "acme" ⟨1, "acme", "Acme", "sek", some 7, "$", "Asia/Kolkata", true⟩
      ⟨"S1", "hello"⟩ "Bearer sek" 5 (by decide) (by decide) (by decide) (by decide) (by decide),
    h.2.2.2 "acme" ⟨1, "acme", "Acme", "sek", some 7, "$", "Asia/Kolkata", true⟩
      ⟨"S1", "hello"⟩ 5 (by decide)⟩

/-- An empty store. -/
def dbNil : Db := ⟨[], [], [], [], [], [], []⟩

/-- C5 counterexample: the "today" aggregate is NOT computed from the
server-assigned record time.  An order recorded at server time 172900
(day 2, second 100) with a backdated caller-supplied `received_at = 86400`
(day 1) does not count toward today's window: `order_count` is 0, where the
claim requires it to count. -/
theorem backdated_order_not_in_today_cex :
    (get_today_stats (record_order dbNil 1 "A100" "Bob" (42 : ℚ) 2 (some 86400) 172900)
        1 172900).order_count = 0 ∧
    (record_order dbNil 1 "A100" "Bob" (42 : ℚ) 2 (some 86400) 172900).orders
        = [⟨1, "A100", "Bob", (42 : ℚ), 2, "pending", 86400, 172900⟩] := by
  constructor <;> decide

/-- C5 amended: the "today" aggregate is computed from the stored
`received_at` — which is the caller-supplied timestamp whenever one is given
and nonzero, and the server-assigned time only otherwise — and excludes
orders whose status is `cancelled`; consequently an order recorded now with a
backdated caller-supplied timestamp (before the current day boundary) does
NOT count toward today's window. -/
theorem today_stats_stored_received_at (db : Db) (cid : Nat)
    (num name : String) (total : ℚ) (items : Nat) (v now t : Nat)
    (hv : v ≠ 0) :
    stored_received_at (some v) now = v ∧
    (v < t / 86400 * 86400 →
      get_today_stats (record_order db cid num name total items (some v) now) cid t
        = get_today_stats db cid t) ∧
    (∀ o : OrderRow, o.status = "cancelled" →
      get_today_stats { db with orders := db.orders ++ [o] } cid t
        = get_today_stats db cid t) := by
  refine ⟨by simp [stored_received_at, hv], ?_, ?_⟩
  · intro hlt
    have hle : ¬ (t / 86400 * 86400 ≤ v) := Nat.not_le.mpr hlt
    have hrow : today_pred cid (t / 86400 * 86400)
        ⟨cid, num, name, total, items, "pending", stored_received_at (some v) now, now⟩
        = false := by
      unfold today_pred
      simp [stored_received_at, hv, hle]
    unfold get_today_stats record_order
    simp [List.filter_append, hrow]
  · intro o ho
    have hrow : today_pred cid (t / 86400 * 86400) o = false := by
      unfold today_pred
      simp [ho]
    unfold get_today_stats
    simp [List.filter_append, hrow]

theorem today_stats_stored_received_at_witness :
    stored_received_at (some 86400) 172900 = 86400 ∧
    get_today_stats (record_order dbNil 1 "A100" "Bob" (42 : ℚ) 2 (some 86400) 172900)
        1 172900 = get_today_stats dbNil 1 172900 ∧
    get_today_stats { dbNil with orders := dbNil.orders ++
        [⟨1, "A7", "Eve", 10, 1, "cancelled", 172850, 172850⟩] } 1 172900
      = get_today_stats dbNil 1 172900 := by
  have h := today_stats_stored_received_at dbNil 1 "A100" "Bob" (42 : ℚ) 2 86400 172900
    172900 (by decide)
  exact ⟨h.1, h.2.1 (by decide), h.2.2 ⟨1, "A7", "Eve", 10, 1, "cancelled", 172850, 172850⟩ rfl⟩

/-- C10: when the caller omits `received_at` (None) or supplies 0, the stored
`received_at` is the server-assigned `now` (`received_at or now`); given a
positive server clock no stored order can carry `received_at = 0`; and such an
order counts toward the current day's aggregate when queried within the same
day. -/
theorem received_at_server_default (db : Db) (cid : Nat) (num name : String)
    (total : ℚ) (items : Nat) (now t : Nat) (hpos : 0 < now) :
    (∀ r, r = none ∨ r = some 0 → stored_received_at r now = now) ∧
    (∀ r, stored_received_at r now ≠ 0) ∧
    ((record_order db cid num name total items none now).orders
        = db.orders ++ [⟨cid, num, name, total, items, "pending", now, now⟩]) ∧
    (∀ r, r = none ∨ r = some 0 → t / 86400 = now / 86400 →
      (get_today_stats (record_order db cid num name total items r now) cid t).order_count
        = (get_today_stats db cid t).order_count + 1) := by
  refine ⟨?_, ?_, by simp [record_order, stored_received_at], ?_⟩
  · rintro r (rfl | rfl) <;> simp [stored_received_at]
  · intro r
    match r with
    | none => simpa [stored_received_at] using Nat.pos_iff_ne_zero.mp hpos
    | some v =>
        by_cases h : v = 0
        · simp [stored_received_at, h]
          exact Nat.pos_iff_ne_zero.mp hpos
        · simp [stored_received_at, h]
  · rintro r hr hday
    have hst : stored_received_at r now = now := by
      rcases hr with rfl | rfl <;> simp [stored_received_at]
    have hstart : t / 86400 * 86400 ≤ now := by
      rw [hday]; exact Nat.div_mul_le_self now 86400
    have hrow : today_pred cid (t / 86400 * 86400)
        ⟨cid, num, name, total, items, "pending", stored_received_at r now, now⟩ = true := by
      unfold today_pred
      rw [hst]
      simp [hstart]
    unfold get_today_stats record_order
    simp [List.filter_append, hrow]

theorem received_at_server_default_witness :
    stored_received_at (some 0) 172900 = 172900 ∧
    stored_received_at none 172900 ≠ 0 ∧
    (record_order dbNil 1 "A2" "Bob" 10 1 none 172900).orders
        = [⟨1, "A2", "Bob", 10, 1, "pending", 172900, 172900⟩] ∧
    (get_today_stats (record_order dbNil 1 "A2" "Bob" 10 1 (some 0) 172900) 1 172950).order_count
        = (get_today_stats dbNil 1 172950).order_count + 1 := by
  have h := received_at_server_default dbNil 1 "A2" "Bob" 10 1 172900 172950 (by decide)
  refine ⟨h.1 (some 0) (Or.inr rfl), h.2.1 none, ?_, h.2.2.2 (some 0) (Or.inr rfl) (by decide)⟩
  have := h.2.2.1
  simpa [dbNil] using this

theorem verify_secret_errors (client : Client) (auth : String) (e : HErr)
    (h : verify_secret client auth = .error e) :
    e = .http 401 "Missing Authorization header" ∨ e = .http 401 "Invalid secret" := by
  unfold verify_secret at h
  split at h
  · cases h; exact Or.inl rfl
  · dsimp only at h
    split at h
    · cases h
    · cases h; exact Or.inr rfl

/-- C8 counterexample: the two failure causes are distinguishable — an unknown
slug yields `404 Client not found` while a known slug with a wrong secret
yields `401 Invalid secret`; the responses are distinct, so the error does
reveal which part of the `(slug, secret)` pair was wrong. -/
theorem auth_error_distinguishable_cex :
    receive_order dbEx "ghost" ⟨"A1", "Bob", 10, 1, none⟩ "Bearer sek" 5
        = .error (.http 404 "Client not found") ∧
    receive_order dbEx "acme" ⟨"A1", "Bob", 10, 1, none⟩ "Bearer wrong" 5
        = .error (.http 401 "Invalid secret") ∧
    (HErr.http 404 "Client not found") ≠ (HErr.http 401 "Invalid secret") := by
  exact ⟨by decide, by decide, by decide⟩

/-- C8 amended: when the slug resolves to no (active) tenant or the supplied
secret does not match, the request fails closed with an error and no state is
mutated — but the two causes produce different responses: missing tenant gives
`404 Client not found`, a present tenant with a missing or wrong secret gives a
`401` error. -/
theorem auth_failures_fail_closed (db : Db) (slug : String) (body : OrderEvent)
    (auth : String) (now : Nat) :
    (get_client_by_slug db slug = none →
      receive_order db slug body auth now = .error (.http 404 "Client not found")) ∧
    (∀ (client : Client) (e : HErr), get_client_by_slug db slug = some client →
      verify_secret client auth = .error e →
      receive_order db slug body auth now = .error e ∧
      (e = .http 401 "Missing Authorization header" ∨ e = .http 401 "Invalid secret")) := by
  constructor
  · intro h
    unfold receive_order
    rw [h]
  · intro client e hc hv
    refine ⟨?_, verify_secret_errors client auth e hv⟩
    unfold receive_order
    rw [hc]
    simp only [hv]
    rfl

theorem auth_failures_fail_closed_witness :
    receive_order dbEx "ghost" ⟨"A1", "Bob", 10, 1, none⟩ "Bearer sek" 5
        = .error (.http 404 "Client not found") ∧
    receive_order dbEx "acme" ⟨"A1", "Bob", 10, 1, none⟩ "Bearer wrong" 5
        = .error (.http 401 "Invalid secret") := by
  refine ⟨(auth_failures_fail_closed dbEx "ghost" ⟨"A1", "Bob", 10, 1, none⟩ "Bearer sek" 5).1
      (by decide), ?_⟩
  exact ((auth_failures_fail_closed dbEx "acme" ⟨"A1", "Bob", 10, 1, none⟩ "Bearer wrong" 5).2
      ⟨1, "acme", "Acme", "sek", some 7, "$", "Asia/Kolkata", true⟩
      (.http 401 "Invalid secret") (by decide) (by decide)).1

theorem slug_none_of_inactive (db : Db) (slug : String)
    (h : ∀ c ∈ db.clients, c.slug = slug → c.active = false) :
    get_client_by_slug db slug = none := by
  unfold get_client_by_slug
  rw [List.find?_eq_none]
  intro c hc hp
  simp only [Bool.and_eq_true, beq_iff_eq] at hp
  obtain ⟨hs, ha⟩ := hp
  rw [h c hc hs] at ha
  cases ha

/-- C9: a tenant whose `active` flag is false is invisible to every slug-scoped
endpoint — `get_client_by_slug` filters on `active = TRUE`, so the order
webhook, generic event, maintenance check, chat start and chat message all
fail with the same `404 Client not found` produced for a nonexistent slug,
before the secret is checked (the `authorization` value — correct secret
included — is irrelevant) and with no state mutated. -/
theorem inactive_tenant_not_found (db : Db) (slug auth : String) (now : Nat)
    (body : OrderEvent) (gbody : GenericEvent) (cbody : ChatStart)
    (mbody : ChatMessage) (sid : String)
    (h : ∀ c ∈ db.clients, c.slug = slug → c.active = false) :
    get_client_by_slug db slug = none ∧
    receive_order db slug body auth now = .error (.http 404 "Client not found") ∧
    receive_generic_event db slug gbody auth now = .error (.http 404 "Client not found") ∧
    get_maintenance db slug auth = .error (.http 404 "Client not found") ∧
    chat_start db slug cbody auth sid now = .error (.http 404 "Client not found") ∧
    chat_message db slug mbody auth now = .error (.http 404 "Client not found") := by
  have hn := slug_none_of_inactive db slug h
  refine ⟨hn, ?_, ?_, ?_, ?_, ?_⟩
  · unfold receive_order; rw [hn]
  · unfold receive_generic_event; rw [hn]
  · unfold get_maintenance; rw [hn]
  · unfold chat_start; rw [hn]
  · unfold chat_message; rw [hn]

/-- A store whose only tenant `beta` is soft-disabled (`active = false`) with
secret `"sek2"`. -/
def dbInact : Db :=
  { clients := [⟨2, "beta", "Beta", "sek2", some 9, "$", "Asia/Kolkata", false⟩]
    tg := [⟨2, 9, true⟩]
    orders := [], events := [], settings := [], sessions := [], chat_messages := [] }

theorem inactive_tenant_not_found_witness :
    get_client_by_slug dbInact "beta" = none ∧
    receive_order dbInact "beta" ⟨"A1", "Bob", 10, 1, none⟩ "Bearer sek2" 5
        = .error (.http 404 "Client not found") ∧
    chat_message dbInact "beta" ⟨"S1", "hi"⟩ "Bearer sek2" 5
        = .error (.http 404 "Client not found") := by
  have h := inactive_tenant_not_found dbInact "beta" "Bearer sek2" 5
    ⟨"A1", "Bob", 10, 1, none⟩ ⟨"evt", []⟩ ⟨"Vis", "/", "hi"⟩ ⟨"S1", "hi"⟩ "NEW"
    (by decide)
  exact ⟨h.1, h.2.1, h.2.2.2.2.2⟩

/-- The sent set the loop effectively starts from: the stored one when the
date key is unchanged, the freshly reset empty set otherwise. -/
def sent0 (bd : BotData) (dateKey : String) : List (Nat × String) :=
  if bd.summary_last_day = some dateKey then bd.summary_sent else []

theorem summaryLoop_sent_mono (dk : String) (ok : Nat → Bool) (clients : List Client)
    (sent : List (Nat × String)) (k : Nat × String) (hk : k ∈ sent) :
    k ∈ (summaryLoop dk ok clients sent).1 := by
  induction clients generalizing sent with
  | nil => simpa [summaryLoop] using hk
  | cons c rest ih =>
      unfold summaryLoop
      by_cases h1 : (c.id, dk) ∈ sent
      · simp only [if_pos h1]
        exact ih _ hk
      · by_cases h2 : ok c.id = true
        · simp only [if_neg h1, h2, if_true]
          exact ih _ (List.mem_cons_of_mem _ hk)
        · simp only [if_neg h1, h2, if_false]
          exact ih _ hk

theorem summaryLoop_mem_sent_of_sent (dk : String) (ok : Nat → Bool)
    (clients : List Client) (sent : List (Nat × String)) (cid : Nat)
    (h : cid ∈ (summaryLoop dk ok clients sent).2) :
    (cid, dk) ∈ (summaryLoop dk ok clients sent).1 := by
  induction clients generalizing sent with
  | nil => simp [summaryLoop] at h
  | cons c rest ih =>
      unfold summaryLoop at h ⊢
      by_cases h1 : (c.id, dk) ∈ sent
      · simp only [if_pos h1] at h ⊢
        exact ih _ h
      · by_cases h2 : ok c.id = true
        · simp only [if_neg h1, h2, if_true] at h ⊢
          rcases List.mem_cons.mp h with rfl | hm
          · exact summaryLoop_sent_mono _ _ _ _ _ (List.mem_cons_self _ _)
          · exact ih _ hm
        · simp only [if_neg h1, h2, if_false] at h ⊢
          exact ih _ h

theorem summaryLoop_count_zero (dk : String) (ok : Nat → Bool) (clients : List Client)
    (sent : List (Nat × String)) (cid : Nat) (hk : (cid, dk) ∈ sent) :
    (summaryLoop dk ok clients sent).2.count cid = 0 := by
  induction clients generalizing sent with
  | nil => simp [summaryLoop]
  | cons c rest ih =>
      unfold summaryLoop
      by_cases h1 : (c.id, dk) ∈ sent
      · simp only [if_pos h1]
        exact ih _ hk
      · by_cases h2 : ok c.id = true
        · have hne : c.id ≠ cid := fun he => h1 (he ▸ hk)
          simp only [if_neg h1, h2, if_true]
          rw [List.count_cons]
          simp only [beq_iff_eq]
          rw [if_neg hne]
          simpa using ih ((c.id, dk) :: sent) (List.mem_cons_of_mem _ hk)
        · simp only [if_neg h1, h2, if_false]
          exact ih _ hk

theorem summaryLoop_count_le_one (dk : String) (ok : Nat → Bool) (clients : List Client)
    (sent : List (Nat × String)) (cid : Nat) :
    (summaryLoop dk ok clients sent).2.count cid ≤ 1 := by
  induction clients generalizing sent with
  | nil => simp [summaryLoop]
  | cons c rest ih =>
      unfold summaryLoop
      by_cases h1 : (c.id, dk) ∈ sent
      · simp only [if_pos h1]
        exact ih _
      · by_cases h2 : ok c.id = true
        · simp only [if_neg h1, h2, if_true]
          rw [List.count_cons]
          by_cases he : c.id = cid
          · subst he
            have h0 := summaryLoop_count_zero dk ok rest ((c.id, dk) :: sent) c.id
              (List.mem_cons_self _ _)
            simp [h0]
          · simp only [beq_iff_eq]
            rw [if_neg he]
            simpa using ih ((c.id, dk) :: sent)
        · simp only [if_neg h1, h2, if_false]
          exact ih _

theorem summaryLoop_not_sent (dk : String) (ok : Nat → Bool) (clients : List Client)
    (cid : Nat) :
    ∀ sent : List (Nat × String),
      (∀ c ∈ clients, c.id = cid → ok c.id = false) →
      (cid, dk) ∉ sent →
      (cid, dk) ∉ (summaryLoop dk ok clients sent).1 ∧
      cid ∉ (summaryLoop dk ok clients sent).2 := by
  induction clients with
  | nil =>
      intro sent _ hk
      exact ⟨by simpa [summaryLoop] using hk, by simp [summaryLoop]⟩
  | cons c rest ih =>
      intro sent hok hk
      unfold summaryLoop
      by_cases h1 : (c.id, dk) ∈ sent
      · simp only [if_pos h1]
        exact ih _ (fun c' hc' => hok c' (List.mem_cons_of_mem _ hc')) hk
      · by_cases h2 : ok c.id = true
        · have hne : c.id ≠ cid := by
            intro he
            have := hok c (List.mem_cons_self _ _) he
            rw [h2] at this
            cases this
          simp only [if_neg h1, h2, if_true]
          have hk2 : (cid, dk) ∉ (c.id, dk) :: sent := by
            intro hmem
            rcases List.mem_cons.mp hmem with he | hm
            · exact hne (congrArg Prod.fst he).symm
            · exact hk hm
          have ihr := ih _ (fun c' hc' => hok c' (List.mem_cons_of_mem _ hc')) hk2
          refine ⟨ihr.1, ?_⟩
          intro hmem
          rcases List.mem_cons.mp hmem with he | hm
          · exact hne he.symm
          · exact ihr.2 hm
        · simp only [if_neg h1, h2, if_false]
          exact ih _ (fun c' hc' => hok c' (List.mem_cons_of_mem _ hc')) hk

theorem summaryLoop_sends (dk : String) (ok : Nat → Bool) (clients : List Client)
    (c' : Client) :
    ∀ sent : List (Nat × String),
      c' ∈ clients → ok c'.id = true →
      c'.id ∈ (summaryLoop dk ok clients sent).2 ∨ (c'.id, dk) ∈ sent := by
  induction clients with
  | nil =>
      intro sent hc _
      cases hc
  | cons c rest ih =>
      intro sent hc hok
      unfold summaryLoop
      rcases List.mem_cons.mp hc with rfl | hrest
      · by_cases h1 : (c'.id, dk) ∈ sent
        · exact Or.inr h1
        · simp only [if_neg h1, hok, if_true]
          exact Or.inl (List.mem_cons_self _ _)
      · by_cases h1 : (c.id, dk) ∈ sent
        · simp only [if_pos h1]
          exact ih _ hrest hok
        · by_cases h2 : ok c.id = true
          · simp only [if_neg h1, h2, if_true]
            rcases ih ((c.id, dk) :: sent) hrest hok with hs | hsent
            · exact Or.inl (List.mem_cons_of_mem _ hs)
            · rcases List.mem_cons.mp hsent with he | hm
              · refine Or.inl ?_
                have hid : c'.id = c.id := congrArg Prod.fst he
                rw [hid]
                exact List.mem_cons_self _ _
              · exact Or.inr hm
          · simp only [if_neg h1, h2, if_false]
            exact ih _ hrest hok

theorem daily_summary_job_eq (sh sm : Nat) (db : Db) (bd : BotData) (tk : Tick)
    (hh : tk.hour = sh) (hm : tk.minute = sm) :
    daily_summary_job sh sm db bd tk
      = (⟨some tk.dateKey,
          (summaryLoop tk.dateKey tk.sendOk (get_all_active_clients db) (sent0 bd tk.dateKey)).1⟩,
         (summaryLoop tk.dateKey tk.sendOk (get_all_active_clients db) (sent0 bd tk.dateKey)).2) := by
  obtain ⟨ld, ss⟩ := bd
  unfold daily_summary_job sent0
  by_cases h : ld = some tk.dateKey <;> simp [h, hh, hm, BotData.summary_last_day, BotData.summary_sent]

theorem daily_summary_job_skip (sh sm : Nat) (db : Db) (bd : BotData) (tk : Tick)
    (h : ¬ (tk.hour = sh ∧ tk.minute = sm)) :
    daily_summary_job sh sm db bd tk = (⟨some tk.dateKey, sent0 bd tk.dateKey⟩, []) := by
  obtain ⟨ld, ss⟩ := bd
  unfold daily_summary_job sent0
  by_cases hld : ld = some tk.dateKey <;> simp [hld, h, BotData.summary_last_day, BotData.summary_sent]

theorem run_summary_count_zero (sh sm : Nat) (db : Db) (ticks : List Tick)
    (d : String) (cid : Nat) :
    ∀ bd : BotData,
      bd.summary_last_day = some d →
      (cid, d) ∈ bd.summary_sent →
      (∀ tk ∈ ticks, tk.dateKey = d) →
      (run_summary sh sm db ticks bd).2.count cid = 0 := by
  induction ticks with
  | nil =>
      intro bd _ _ _
      simp [run_summary]
  | cons tk rest ih =>
      intro bd hlast hmem hall
      have hdk : tk.dateKey = d := hall tk (List.mem_cons_self _ _)
      have hrest : ∀ t ∈ rest, t.dateKey = d := fun t ht => hall t (List.mem_cons_of_mem _ ht)
      unfold run_summary
      rw [List.count_append]
      by_cases hmatch : tk.hour = sh ∧ tk.minute = sm
      · rw [daily_summary_job_eq sh sm db bd tk hmatch.1 hmatch.2]
        have hsent0 : sent0 bd tk.dateKey = bd.summary_sent := by
          unfold sent0
          rw [hdk, hlast]
          simp
        have hmem' : (cid, tk.dateKey) ∈ sent0 bd tk.dateKey := by
          rw [hsent0, hdk]
          exact hmem
        rw [summaryLoop_count_zero _ _ _ _ _ hmem']
        rw [ih ⟨some tk.dateKey,
              (summaryLoop tk.dateKey tk.sendOk (get_all_active_clients db)
                (sent0 bd tk.dateKey)).1⟩ (by rw [hdk]) (by
            have := summaryLoop_sent_mono tk.dateKey tk.sendOk (get_all_active_clients db)
              (sent0 bd tk.dateKey) (cid, tk.dateKey) hmem'
            simpa [hdk] using this) hrest]
      · rw [daily_summary_job_skip sh sm db bd tk hmatch]
        have hsent0 : sent0 bd tk.dateKey = bd.summary_sent := by
          unfold sent0
          rw [hdk, hlast]
          simp
        rw [ih ⟨some tk.dateKey, sent0 bd tk.dateKey⟩ (by rw [hdk])
            (by rw [hsent0, hdk]; exact hmem) hrest]
        simp

/-- C6: for any run of the 60-second tick over a single calendar date, each
tenant's daily summary is successfully sent at most once; ticks outside the
configured hour:minute send nothing; and a `(tenant, date)` key already in the
sent set is skipped. -/
theorem daily_summary_at_most_once (sh sm : Nat) (db : Db) (bd : BotData)
    (ticks : List Tick) (d : String) (cid : Nat)
    (hall : ∀ tk ∈ ticks, tk.dateKey = d) :
    (run_summary sh sm db ticks bd).2.count cid ≤ 1 ∧
    (∀ tk : Tick, ¬ (tk.hour = sh ∧ tk.minute = sm) →
      (daily_summary_job sh sm db bd tk).2 = []) ∧
    (∀ tk : Tick, tk.hour = sh → tk.minute = sm →
      bd.summary_last_day = some tk.dateKey →
      (cid, tk.dateKey) ∈ bd.summary_sent →
      cid ∉ (daily_summary_job sh sm db bd tk).2) := by
  refine ⟨?_, ?_, ?_⟩
  · induction ticks generalizing bd with
    | nil => simp [run_summary]
    | cons tk rest ih =>
        have hdk : tk.dateKey = d := hall tk (List.mem_cons_self _ _)
        have hrest : ∀ t ∈ rest, t.dateKey = d := fun t ht => hall t (List.mem_cons_of_mem _ ht)
        unfold run_summary
        rw [List.count_append]
        by_cases hmatch : tk.hour = sh ∧ tk.minute = sm
        · rw [daily_summary_job_eq sh sm db bd tk hmatch.1 hmatch.2]
          dsimp only
          by_cases hin : cid ∈ (summaryLoop tk.dateKey tk.sendOk (get_all_active_clients db)
              (sent0 bd tk.dateKey)).2
          · have hkey := summaryLoop_mem_sent_of_sent tk.dateKey tk.sendOk
              (get_all_active_clients db) (sent0 bd tk.dateKey) cid hin
            have hz := run_summary_count_zero sh sm db rest d cid
              ⟨some tk.dateKey,
               (summaryLoop tk.dateKey tk.sendOk (get_all_active_clients db)
                 (sent0 bd tk.dateKey)).1⟩ (by rw [hdk]) (by simpa [hdk] using hkey) hrest
            rw [hz]
            have hle := summaryLoop_count_le_one tk.dateKey tk.sendOk
              (get_all_active_clients db) (sent0 bd tk.dateKey) cid
            omega
          · rw [List.count_eq_zero.mpr hin]
            simpa using ih _ hrest
        · rw [daily_summary_job_skip sh sm db bd tk hmatch]
          simpa using ih _ hrest
  · intro tk h
    rw [daily_summary_job_skip sh sm db bd tk h]
  · intro tk hh hm hlast hmem
    rw [daily_summary_job_eq sh sm db bd tk hh hm]
    have hsent0 : sent0 bd tk.dateKey = bd.summary_sent := by
      unfold sent0
      rw [hlast]
      simp
    have hz := summaryLoop_count_zero tk.dateKey tk.sendOk (get_all_active_clients db)
      (sent0 bd tk.dateKey) cid (by rw [hsent0]; exact hmem)
    exact List.count_eq_zero.mp hz

/-- A tick at the configured 21:00 minute whose sends all succeed. -/
def tkA : Tick := ⟨"2026-10-12", 21, 0, fun _ => true⟩

/-- A tick outside the configured minute. -/
def tkOff : Tick := ⟨"2026-10-12", 20, 30, fun _ => true⟩

theorem daily_summary_at_most_once_witness :
    (run_summary 21 0 dbEx [tkA, tkA] ⟨none, []⟩).2.count 1 ≤ 1 ∧
    (daily_summary_job 21 0 dbEx ⟨none, []⟩ tkOff).2 = [] ∧
    1 ∉ (daily_summary_job 21 0 dbEx ⟨some "2026-10-12", [(1, "2026-10-12")]⟩ tkA).2 := by
  have hall : ∀ tk ∈ [tkA, tkA], tk.dateKey = "2026-10-12" := by
    intro tk h
    rcases List.mem_cons.mp h with rfl | h2
    · rfl
    · rcases List.mem_cons.mp h2 with rfl | h3
      · rfl
      · cases h3
  have h1 := daily_summary_at_most_once 21 0 dbEx ⟨none, []⟩ [tkA, tkA] "2026-10-12" 1 hall
  have h2 := daily_summary_at_most_once 21 0 dbEx ⟨some "2026-10-12", [(1, "2026-10-12")]⟩
    [] "2026-10-12" 1 (by simp)
  exact ⟨h1.1, h1.2.1 tkOff (by decide), h2.2.2 tkA rfl rfl rfl (by decide)⟩

/-- C7: within a matching-minute tick, a send failure for one tenant leaves
its `(tenant, date)` key out of the sent set and the tenant out of the sends,
does not prevent the remaining tenants from being sent in the same tick, and a
subsequent tick in the same matching minute retries and sends the failed
tenant. -/
theorem summary_failure_isolated (sh sm : Nat) (db : Db) (bd : BotData) (tk : Tick)
    (c : Client)
    (hh : tk.hour = sh) (hm : tk.minute = sm)
    (hmem : c ∈ get_all_active_clients db)
    (hfail : tk.sendOk c.id = false)
    (hkey : (c.id, tk.dateKey) ∉ sent0 bd tk.dateKey) :
    (c.id, tk.dateKey) ∉ (daily_summary_job sh sm db bd tk).1.summary_sent ∧
    c.id ∉ (daily_summary_job sh sm db bd tk).2 ∧
    (∀ c' ∈ get_all_active_clients db, tk.sendOk c'.id = true →
      (c'.id, tk.dateKey) ∉ sent0 bd tk.dateKey →
      c'.id ∈ (daily_summary_job sh sm db bd tk).2) ∧
    (∀ tk' : Tick, tk'.hour = sh → tk'.minute = sm → tk'.dateKey = tk.dateKey →
      tk'.sendOk c.id = true →
      c.id ∈ (daily_summary_job sh sm db (daily_summary_job sh sm db bd tk).1 tk').2) := by
  have hok : ∀ c'' ∈ get_all_active_clients db, c''.id = c.id → tk.sendOk c''.id = false := by
    intro c'' _ he
    rw [he]
    exact hfail
  have hns := summaryLoop_not_sent tk.dateKey tk.sendOk (get_all_active_clients db) c.id
    (sent0 bd tk.dateKey) hok hkey
  rw [daily_summary_job_eq sh sm db bd tk hh hm]
  dsimp only
  refine ⟨hns.1, hns.2, ?_, ?_⟩
  · intro c' hc' hok' hkey'
    rcases summaryLoop_sends tk.dateKey tk.sendOk (get_all_active_clients db) c'
      (sent0 bd tk.dateKey) hc' hok' with hs | hmem'
    · exact hs
    · exact absurd hmem' hkey'
  · intro tk' hh' hm' hdk' hok'
    rw [daily_summary_job_eq sh sm db _ tk' hh' hm']
    dsimp only
    rcases summaryLoop_sends tk'.dateKey tk'.sendOk (get_all_active_clients db) c
        (sent0 ⟨some tk.dateKey,
          (summaryLoop tk.dateKey tk.sendOk (get_all_active_clients db)
            (sent0 bd tk.dateKey)).1⟩ tk'.dateKey) hmem hok' with hs | hm2
    · exact hs
    · exfalso
      have hsent1 : sent0 (⟨some tk.dateKey,
          (summaryLoop tk.dateKey tk.sendOk (get_all_active_clients db)
            (sent0 bd tk.dateKey)).1⟩ : BotData) tk'.dateKey
          = (summaryLoop tk.dateKey tk.sendOk (get_all_active_clients db)
              (sent0 bd tk.dateKey)).1 := by
        unfold sent0
        rw [hdk']
        simp
      rw [hsent1, hdk'] at hm2
      exact hns.1 hm2

/-- A store with two active tenants, both with a linked destination. -/
def dbTwo : Db :=
  { clients := [⟨1, "acme", "Acme", "sek", some 7, "$", "Asia/Kolkata", true⟩,
                ⟨2, "beta", "Beta", "sek2", some 9, "$", "Asia/Kolkata", true⟩]
    tg := [⟨1, 7, true⟩, ⟨2, 9, true⟩]
    orders := [], events := [], settings := [], sessions := [], chat_messages := [] }

/-- A matching-minute tick during which the send to tenant 1 fails and the
send to tenant 2 succeeds. -/
def tkFail : Tick := ⟨"2026-10-12", 21, 0, fun n => decide (n = 2)⟩

theorem summary_failure_isolated_witness :
    (1, "2026-10-12") ∉ (daily_summary_job 21 0 dbTwo ⟨none, []⟩ tkFail).1.summary_sent ∧
    1 ∉ (daily_summary_job 21 0 dbTwo ⟨none, []⟩ tkFail).2 ∧
    2 ∈ (daily_summary_job 21 0 dbTwo ⟨none, []⟩ tkFail).2 ∧
    1 ∈ (daily_summary_job 21 0 dbTwo (daily_summary_job 21 0 dbTwo ⟨none, []⟩ tkFail).1 tkA).2 := by
  have h := summary_failure_isolated 21 0 dbTwo ⟨none, []⟩ tkFail
    ⟨1, "acme", "Acme", "sek", some 7, "$", "Asia/Kolkata", true⟩
    rfl rfl (by decide) (by decide) (by decide)
  refine ⟨h.1, h.2.1, ?_, h.2.2.2 tkA rfl rfl rfl (by decide)⟩
  exact h.2.2.1 ⟨2, "beta", "Beta", "sek2", some 9, "$", "Asia/Kolkata", true⟩
    (by decide) (by decide) (by decide)

end Relay
